import Mathlib

/-!
# Difficulty-adjustment estimation engine: a shallow embedding

This file embeds the three historical variants of the dsvspace backend's
difficulty-adjustment module and proves the stated properties about them:

* the ASERT variant (`backend/src/api/difficulty-adjustment.ts`), namespace `Asert`;
* the LWMA v1/v2 variant, namespace `Lwma`;
* the simple trailing-average variant, namespace `Simple`.

JavaScript numbers are modelled by `ℤ` where the source only ever holds
integers (heights, timestamps, milliseconds) and by `ℚ` where the source
divides (averages, percentages); the ASERT percentage, which uses
`Math.pow(2, ·)`, is modelled in `ℝ`.
-/

/-- A block sample as read from the block cache: height, Unix timestamp in
seconds, and difficulty.  Models the `{ height, timestamp, difficulty }`
objects consumed by `calculateASERTEstimate` and `calculateLWMAEstimate`. -/
structure Block where
  height : ℤ
  timestamp : ℤ
  difficulty : ℚ
  deriving DecidableEq, Repr, Inhabited

/-- Insert a block into a list already sorted by descending height, placing it
after every block of greater or equal height.  Together with
`sortByHeightDesc` this models the stable JavaScript
`sort((a, b) => b.height - a.height)`. -/
def insertByHeightDesc (b : Block) : List Block → List Block
  | [] => [b]
  | a :: rest =>
      if b.height ≤ a.height then a :: insertByHeightDesc b rest else b :: a :: rest

/-- `[...blocksCache].sort((a, b) => b.height - a.height)`: stable sort by
descending height. -/
def sortByHeightDesc (l : List Block) : List Block :=
  l.foldl (fun acc b => insertByHeightDesc b acc) []

/-- The solve-time clamp shared by both estimator files:
`if (solveTime < 1) solveTime = 1; if (solveTime > 6 * T) solveTime = 6 * T;`. -/
def clampSolveTime (T raw : ℤ) : ℤ :=
  let s := if raw < 1 then 1 else raw
  if 6 * T < s then 6 * T else s

/-- The clamped solve time of the adjacent pair `(sorted[i], sorted[i+1])`
(newest first) with target `T = 150`, as computed inside the loop of
`calculateASERTEstimate` and of `calculateLWMAEstimate`. -/
def pairSolveTime (sorted : List Block) (i : ℕ) : ℤ :=
  clampSolveTime 150 ((sorted.getD i default).timestamp - (sorted.getD (i + 1) default).timestamp)

/-- `blocksAvailable = Math.min(sortedBlocks.length - 1, 45)`, identical in both
estimator files (`RECENT_BLOCKS_WINDOW = LWMA_WINDOW = 45`).  For an empty
cache JavaScript yields `-1` where `Nat` subtraction yields `0`; both are
`< 2`, so every guard below behaves identically. -/
def blocksAvailable (cache : List Block) : ℕ :=
  min ((sortByHeightDesc cache).length - 1) 45

namespace Asert

/-- The `totalSolveTime` accumulated by the loop of `calculateASERTEstimate`;
the `if (!prevBlock) break` guard never fires because the loop bound satisfies
`blocksAvailable ≤ sortedBlocks.length - 1`. -/
def totalSolveTime (sorted : List Block) (n : ℕ) : ℤ :=
  ∑ i ∈ Finset.range n, pairSolveTime sorted i

/-- The `avgSolveTime` component of `calculateASERTEstimate`'s result:
`totalSolveTime / count` with `count = blocksAvailable`, or the default
`T = 150` when `blocksAvailable < 2`.  (The source's `count === 0` guard is
unreachable once `blocksAvailable ≥ 2`.) -/
def avgSolveTime (cache : List Block) : ℚ :=
  let sorted := sortByHeightDesc cache
  let n := blocksAvailable cache
  if n < 2 then 150
  else (totalSolveTime sorted n : ℚ) / (n : ℚ)

/-- The `difficultyChange` component of `calculateASERTEstimate`'s result:
`(Math.pow(2, (T - avgSolveTime) / 3600) - 1) * 100` with `T = 150`,
or `0` when `blocksAvailable < 2`. -/
noncomputable def difficultyChange (cache : List Block) : ℝ :=
  if blocksAvailable cache < 2 then 0
  else ((2 : ℝ) ^ (((150 : ℝ) - ((avgSolveTime cache : ℚ) : ℝ)) / 3600) - 1) * 100

/-- The `DifficultyAdjustment` record of the ASERT variant. -/
structure DifficultyAdjustment where
  progressPercent : ℤ
  difficultyChange : ℝ
  estimatedRetargetDate : ℤ
  remainingBlocks : ℤ
  remainingTime : ℤ
  previousRetarget : ℝ
  previousTime : ℤ
  nextRetargetHeight : ℤ
  timeAvg : ℤ
  timeOffset : ℤ
  expectedBlocks : ℤ

/-- `calcDifficultyAdjustment` of `backend/src/api/difficulty-adjustment.ts`.
The block cache that the source reads from the `blocks` collaborator is passed
explicitly; `TESTNET_MAX_BLOCK_SECONDS = 1200`. -/
noncomputable def calcDifficultyAdjustment (blocksCache : List Block)
    (DATime nowSeconds blockHeight : ℤ) (previousRetarget : ℚ)
    (network : String) (latestBlockTimestamp : ℤ) : DifficultyAdjustment :=
  let dc : ℝ := if 3 ≤ blocksCache.length then difficultyChange blocksCache else 0
  let avg0 : ℚ := if 3 ≤ blocksCache.length then avgSolveTime blocksCache else 150
  let avg1 : ℚ := if network = "testnet" ∧ 1200 < avg0 then 1200 else avg0
  let secondsSinceLastBlock : ℤ := nowSeconds - latestBlockTimestamp
  let timeOffset : ℤ :=
    if network = "testnet" ∧ 1200 < (secondsSinceLastBlock : ℚ) + avg1 then
      -(min secondsSinceLastBlock 1200) * 1000
    else 0
  let timeAvg : ℤ := ⌊avg1 * 1000⌋
  { progressPercent := 100
    difficultyChange := dc
    estimatedRetargetDate := nowSeconds * 1000 + timeAvg
    remainingBlocks := 1
    remainingTime := timeAvg
    previousRetarget := dc
    previousTime := DATime
    nextRetargetHeight := blockHeight + 1
    timeAvg := timeAvg
    timeOffset := timeOffset
    expectedBlocks := 1 }

/-- The values `DifficultyAdjustmentApi.getDifficultyAdjustment` reads from its
collaborators (`blocks`, `config.MEMPOOL.NETWORK`, and the clock). -/
structure ApiState where
  lastDifficultyAdjustmentTime : ℤ
  previousDifficultyRetarget : ℚ
  currentBlockHeight : ℤ
  blocksCache : List Block
  network : String
  nowSeconds : ℤ
  deriving DecidableEq, Repr

/-- `DifficultyAdjustmentApi.getDifficultyAdjustment`:
`blocksCache[blocksCache.length - 1]` is `undefined` exactly when the cache is
empty, in which case the method returns `null`. -/
noncomputable def getDifficultyAdjustment (st : ApiState) : Option DifficultyAdjustment :=
  match st.blocksCache.getLast? with
  | none => none
  | some latestBlock =>
      some (calcDifficultyAdjustment st.blocksCache st.lastDifficultyAdjustmentTime
        st.nowSeconds st.currentBlockHeight st.previousDifficultyRetarget st.network
        latestBlock.timestamp)

end Asert

namespace Lwma

/-- The `sumWeightedSolvetimes` accumulated by the loop of
`calculateLWMAEstimate`: iterating newest-first, index `i` carries weight
`blocksAvailable - i` (so the newest pair weighs `n` and the oldest weighs 1). -/
def sumWeightedSolvetimes (sorted : List Block) (n : ℕ) : ℤ :=
  ∑ i ∈ Finset.range n, pairSolveTime sorted i * ((n - i : ℕ) : ℤ)

/-- The `sumWeights` accumulated by the same loop. -/
def sumWeights (n : ℕ) : ℤ :=
  ∑ i ∈ Finset.range n, ((n - i : ℕ) : ℤ)

/-- `calculateLWMAEstimate` of the LWMA variant, returning the pair
`(difficultyChange, weightedAvgSolvetime)`.  Constants from the source:
`T = 150`, `LWMA_WINDOW = 45`, `LWMA_V2_ACTIVATION_HEIGHT = 1244300`,
`LWMA_V2_ACTIVATION_HEIGHT_TESTNET = 200`, v1 caps `[-90, 100]`, v2 caps
`[-66.67, 200]`.  The source's `windowStartBlock?.difficulty || currentDifficulty`
falls back exactly when that difficulty is falsy, i.e. `0` (and `getD`'s default
block also has difficulty `0`). -/
def calculateLWMAEstimate (cache : List Block) (network : String) : ℚ × ℚ :=
  let sorted := sortByHeightDesc cache
  let currentBlock := sorted.getD 0 default
  let n := min (sorted.length - 1) 45
  if n < 2 then (0, 150)
  else
    let lwmaV2Height : ℤ := if network = "testnet" then 200 else 1244300
    let useLWMAv2 := lwmaV2Height ≤ currentBlock.height
    let sumWS := sumWeightedSolvetimes sorted n
    let sumW := sumWeights n
    if sumW = 0 then (0, 150)
    else
      let weightedAvgSolvetime : ℚ := (sumWS : ℚ) / (sumW : ℚ)
      let dc : ℚ :=
        if useLWMAv2 ∧ 3 ≤ n then
          let currentDifficulty := currentBlock.difficulty
          let windowStartDifficulty :=
            if (sorted.getD n default).difficulty = 0 then currentDifficulty
            else (sorted.getD n default).difficulty
          let expectedWeightedSolvetimes : ℚ := (sumW : ℚ) * 150
          let nextDifficulty := windowStartDifficulty / ((sumWS : ℚ) / expectedWeightedSolvetimes)
          let dc0 := (nextDifficulty - currentDifficulty) / currentDifficulty * 100
          let dc1 := if 200 < dc0 then 200 else dc0
          if dc1 < -6667 / 100 then -6667 / 100 else dc1
        else
          let dc0 := (150 / weightedAvgSolvetime - 1) * 100
          let dc1 := if 100 < dc0 then 100 else dc0
          if dc1 < -90 then -90 else dc1
      (dc, weightedAvgSolvetime)

/-- The `DifficultyAdjustment` record of the LWMA variant. -/
structure DifficultyAdjustment where
  progressPercent : ℤ
  difficultyChange : ℚ
  estimatedRetargetDate : ℤ
  remainingBlocks : ℤ
  remainingTime : ℤ
  previousRetarget : ℚ
  previousTime : ℤ
  nextRetargetHeight : ℤ
  timeAvg : ℤ
  timeOffset : ℤ
  expectedBlocks : ℤ
  deriving DecidableEq, Repr

/-- `calcDifficultyAdjustment` of the LWMA variant file. -/
def calcDifficultyAdjustment (blocksCache : List Block)
    (DATime nowSeconds blockHeight : ℤ) (previousRetarget : ℚ)
    (network : String) (latestBlockTimestamp : ℤ) : DifficultyAdjustment :=
  let est : ℚ × ℚ :=
    if 3 ≤ blocksCache.length then calculateLWMAEstimate blocksCache network else (0, 150)
  let dc : ℚ := est.1
  let avg0 : ℚ := est.2
  let avg1 : ℚ := if network = "testnet" ∧ 1200 < avg0 then 1200 else avg0
  let secondsSinceLastBlock : ℤ := nowSeconds - latestBlockTimestamp
  let timeOffset : ℤ :=
    if network = "testnet" ∧ 1200 < (secondsSinceLastBlock : ℚ) + avg1 then
      -(min secondsSinceLastBlock 1200) * 1000
    else 0
  let timeAvg : ℤ := ⌊avg1 * 1000⌋
  { progressPercent := 100
    difficultyChange := dc
    estimatedRetargetDate := nowSeconds * 1000 + timeAvg
    remainingBlocks := 1
    remainingTime := timeAvg
    previousRetarget := dc
    previousTime := DATime
    nextRetargetHeight := blockHeight + 1
    timeAvg := timeAvg
    timeOffset := timeOffset
    expectedBlocks := 1 }

/-- The values the LWMA variant's `DifficultyAdjustmentApi.getDifficultyAdjustment`
reads from its collaborators (`blocks`, `config.MEMPOOL.NETWORK`, and the clock). -/
structure ApiState where
  lastDifficultyAdjustmentTime : ℤ
  previousDifficultyRetarget : ℚ
  currentBlockHeight : ℤ
  blocksCache : List Block
  network : String
  nowSeconds : ℤ
  deriving DecidableEq, Repr

/-- `DifficultyAdjustmentApi.getDifficultyAdjustment` of the LWMA variant file:
`blocksCache[blocksCache.length - 1]` is `undefined` exactly when the cache is
empty, in which case the method returns `null`. -/
def getDifficultyAdjustment (st : ApiState) : Option DifficultyAdjustment :=
  match st.blocksCache.getLast? with
  | none => none
  | some latestBlock =>
      some (calcDifficultyAdjustment st.blocksCache st.lastDifficultyAdjustmentTime
        st.nowSeconds st.currentBlockHeight st.previousDifficultyRetarget st.network
        latestBlock.timestamp)

end Lwma

namespace Simple

/-- The `timeAvgSecs` computed by the simplified trailing-average variant:
the end-to-end timestamp difference of the last `min(length - 1, 45) + 1`
cached blocks (cache order, no sorting, no per-pair clamping) divided by the
pair count, kept only when positive; otherwise the default `T = 150`. -/
def timeAvgSecs (blocksCache : List Block) : ℚ :=
  if 2 ≤ blocksCache.length then
    let windowSize := min (blocksCache.length - 1) 45
    let recentBlocks := blocksCache.drop (blocksCache.length - (windowSize + 1))
    if 2 ≤ recentBlocks.length then
      let firstBlock := recentBlocks.getD 0 default
      let lastBlock := recentBlocks.getD (recentBlocks.length - 1) default
      let timeDiff := lastBlock.timestamp - firstBlock.timestamp
      let blockCount := recentBlocks.length - 1
      if 0 < blockCount ∧ 0 < timeDiff then (timeDiff : ℚ) / (blockCount : ℚ)
      else 150
    else 150
  else 150

/-- The `DifficultyAdjustment` record of the simple variant. -/
structure DifficultyAdjustment where
  progressPercent : ℤ
  difficultyChange : ℚ
  estimatedRetargetDate : ℤ
  remainingBlocks : ℤ
  remainingTime : ℤ
  previousRetarget : ℚ
  previousTime : ℤ
  nextRetargetHeight : ℤ
  timeAvg : ℤ
  timeOffset : ℤ
  expectedBlocks : ℤ
  deriving DecidableEq, Repr

/-- `calcDifficultyAdjustment` of the simplified variant file: it reports
`previousRetarget` as the difficulty change and the trailing average as the
block time. -/
def calcDifficultyAdjustment (blocksCache : List Block)
    (DATime nowSeconds blockHeight : ℤ) (previousRetarget : ℚ)
    (network : String) (latestBlockTimestamp : ℤ) : DifficultyAdjustment :=
  let avg0 : ℚ := timeAvgSecs blocksCache
  let avg1 : ℚ := if network = "testnet" ∧ 1200 < avg0 then 1200 else avg0
  let secondsSinceLastBlock : ℤ := nowSeconds - latestBlockTimestamp
  let timeOffset : ℤ :=
    if network = "testnet" ∧ 1200 < (secondsSinceLastBlock : ℚ) + avg1 then
      -(min secondsSinceLastBlock 1200) * 1000
    else 0
  let timeAvg : ℤ := ⌊avg1 * 1000⌋
  { progressPercent := 100
    difficultyChange := previousRetarget
    estimatedRetargetDate := nowSeconds * 1000 + timeAvg
    remainingBlocks := 1
    remainingTime := timeAvg
    previousRetarget := previousRetarget
    previousTime := DATime
    nextRetargetHeight := blockHeight + 1
    timeAvg := timeAvg
    timeOffset := timeOffset
    expectedBlocks := 1 }

end Simple

/-! ## Basic facts about the shared window machinery -/

theorem insertByHeightDesc_length (b : Block) (l : List Block) :
    (insertByHeightDesc b l).length = l.length + 1 := by
  induction l with
  | nil => rfl
  | cons a rest ih =>
      simp only [insertByHeightDesc]
      split <;> simp [ih]

theorem sortByHeightDesc_length (l : List Block) :
    (sortByHeightDesc l).length = l.length := by
  suffices h : ∀ acc : List Block,
      (l.foldl (fun acc b => insertByHeightDesc b acc) acc).length = acc.length + l.length by
    simpa [sortByHeightDesc] using h []
  induction l with
  | nil => simp
  | cons a rest ih =>
      intro acc
      simp only [List.foldl_cons, ih, insertByHeightDesc_length, List.length_cons]
      omega

theorem blocksAvailable_eq (cache : List Block) :
    blocksAvailable cache = min (cache.length - 1) 45 := by
  simp [blocksAvailable, sortByHeightDesc_length]

theorem pairSolveTime_bounds (sorted : List Block) (i : ℕ) :
    1 ≤ pairSolveTime sorted i ∧ pairSolveTime sorted i ≤ 900 := by
  simp only [pairSolveTime, clampSolveTime]
  constructor <;> (split_ifs <;> omega)

theorem totalSolveTime_bounds (sorted : List Block) (n : ℕ) :
    (n : ℤ) ≤ Asert.totalSolveTime sorted n ∧ Asert.totalSolveTime sorted n ≤ 900 * n := by
  constructor
  · calc (n : ℤ) = ∑ _i ∈ Finset.range n, (1 : ℤ) := by simp
    _ ≤ _ := Finset.sum_le_sum fun i _ => (pairSolveTime_bounds sorted i).1
  · calc Asert.totalSolveTime sorted n ≤ ∑ _i ∈ Finset.range n, (900 : ℤ) :=
        Finset.sum_le_sum fun i _ => (pairSolveTime_bounds sorted i).2
    _ = 900 * n := by simp [mul_comm]

theorem avgSolveTime_bounds (cache : List Block) (h : 2 ≤ blocksAvailable cache) :
    1 ≤ Asert.avgSolveTime cache ∧ Asert.avgSolveTime cache ≤ 900 := by
  have hn : ¬ blocksAvailable cache < 2 := not_lt.mpr h
  have hpos : (0 : ℚ) < (blocksAvailable cache : ℚ) := by
    have : 0 < blocksAvailable cache := by omega
    exact_mod_cast this
  have hb := totalSolveTime_bounds (sortByHeightDesc cache) (blocksAvailable cache)
  simp only [Asert.avgSolveTime, if_neg hn]
  constructor
  · rw [one_le_div hpos]
    exact_mod_cast hb.1
  · rw [div_le_iff₀ hpos]
    calc (Asert.totalSolveTime (sortByHeightDesc cache) (blocksAvailable cache) : ℚ)
        ≤ ((900 * blocksAvailable cache : ℤ) : ℚ) := by exact_mod_cast hb.2
    _ = 900 * (blocksAvailable cache : ℚ) := by push_cast; ring

theorem sumWeights_pos (n : ℕ) (h : 0 < n) : 0 < Lwma.sumWeights n := by
  apply Finset.sum_pos
  · intro i hi
    simp only [Finset.mem_range] at hi
    omega
  · simp only [Finset.nonempty_range_iff]
    omega

theorem sumWeightedSolvetimes_bounds (sorted : List Block) (n : ℕ) :
    Lwma.sumWeights n ≤ Lwma.sumWeightedSolvetimes sorted n ∧
      Lwma.sumWeightedSolvetimes sorted n ≤ 900 * Lwma.sumWeights n := by
  constructor
  · apply Finset.sum_le_sum
    intro i _
    have h1 := (pairSolveTime_bounds sorted i).1
    have hw : (0 : ℤ) ≤ ((n - i : ℕ) : ℤ) := Int.ofNat_nonneg _
    nlinarith
  · rw [Lwma.sumWeights, Finset.mul_sum]
    apply Finset.sum_le_sum
    intro i _
    have h2 := (pairSolveTime_bounds sorted i).2
    have hw : (0 : ℤ) ≤ ((n - i : ℕ) : ℤ) := Int.ofNat_nonneg _
    nlinarith

theorem lwmaWeightedAvg_bounds (sorted : List Block) (n : ℕ) (h : 0 < n) :
    1 ≤ (Lwma.sumWeightedSolvetimes sorted n : ℚ) / (Lwma.sumWeights n : ℚ) ∧
      (Lwma.sumWeightedSolvetimes sorted n : ℚ) / (Lwma.sumWeights n : ℚ) ≤ 900 := by
  have hw : (0 : ℚ) < (Lwma.sumWeights n : ℚ) := by exact_mod_cast sumWeights_pos n h
  have hb := sumWeightedSolvetimes_bounds sorted n
  constructor
  · rw [one_le_div hw]
    exact_mod_cast hb.1
  · rw [div_le_iff₀ hw]
    calc (Lwma.sumWeightedSolvetimes sorted n : ℚ) ≤ ((900 * Lwma.sumWeights n : ℤ) : ℚ) := by
          exact_mod_cast hb.2
    _ = 900 * (Lwma.sumWeights n : ℚ) := by push_cast; ring

/-- The testnet ceiling assignment `if (x > 1200) x = 1200` is `min x 1200`. -/
theorem ite_ceil_eq_min (a : ℚ) : (if 1200 < a then 1200 else a) = min a 1200 := by
  rcases le_or_lt a 1200 with hle | hlt
  · rw [if_neg (not_lt.mpr hle), min_eq_left hle]
  · rw [if_pos hlt, min_eq_right hlt.le]

/-- Claim C6 (amended): in the ASERT and LWMA estimators every per-pair solve
time is `clamp(sample[i].timestamp - sample[i+1].timestamp, 1, 6·T) ∈ [1, 900]`,
whatever the timestamps; the simple trailing-average variant has no per-pair
clamp — its reference solve time is only guaranteed positive (it is the raw
end-to-end time difference over the window divided by the pair count, kept only
when positive), and it can exceed `6·T`. -/
theorem c6_solve_time_clamped_asert_lwma (sorted : List Block) (i : ℕ)
    (cache : List Block) :
    (1 ≤ pairSolveTime sorted i ∧ pairSolveTime sorted i ≤ 6 * 150) ∧
      0 < Simple.timeAvgSecs cache := by
  refine ⟨⟨(pairSolveTime_bounds sorted i).1, ?_⟩, ?_⟩
  · have := (pairSolveTime_bounds sorted i).2
    omega
  · simp only [Simple.timeAvgSecs]
    split_ifs with h1 h2 h3
    · rcases h3 with ⟨hc, ht⟩
      apply div_pos
      · exact_mod_cast ht
      · exact_mod_cast hc
    · norm_num
    · norm_num
    · norm_num

/-- Claim C6 counterexample: with three blocks spaced 3750 s apart the simple
trailing-average variant uses the unclamped solve time 3750 s > 6·T = 900 s. -/
theorem c6_simple_unclamped_counterexample :
    Simple.timeAvgSecs [⟨0, 0, 100⟩, ⟨1, 3750, 100⟩, ⟨2, 7500, 100⟩] = 3750 ∧
      (6 * 150 : ℚ) < 3750 := by
  constructor
  · norm_num [Simple.timeAvgSecs]
  · norm_num

/-- Claim C7: every variant's assembled report has `progressPercent = 100`,
`remainingBlocks = 1`, `expectedBlocks = 1` and
`nextRetargetHeight = blockHeight + 1`, for every input. -/
theorem c7_per_block_retarget_invariants (blocksCache : List Block)
    (DATime nowSeconds blockHeight : ℤ) (previousRetarget : ℚ)
    (network : String) (latestBlockTimestamp : ℤ) :
    ((Asert.calcDifficultyAdjustment blocksCache DATime nowSeconds blockHeight
        previousRetarget network latestBlockTimestamp).progressPercent = 100 ∧
      (Asert.calcDifficultyAdjustment blocksCache DATime nowSeconds blockHeight
        previousRetarget network latestBlockTimestamp).remainingBlocks = 1 ∧
      (Asert.calcDifficultyAdjustment blocksCache DATime nowSeconds blockHeight
        previousRetarget network latestBlockTimestamp).expectedBlocks = 1 ∧
      (Asert.calcDifficultyAdjustment blocksCache DATime nowSeconds blockHeight
        previousRetarget network latestBlockTimestamp).nextRetargetHeight = blockHeight + 1) ∧
    ((Lwma.calcDifficultyAdjustment blocksCache DATime nowSeconds blockHeight
        previousRetarget network latestBlockTimestamp).progressPercent = 100 ∧
      (Lwma.calcDifficultyAdjustment blocksCache DATime nowSeconds blockHeight
        previousRetarget network latestBlockTimestamp).remainingBlocks = 1 ∧
      (Lwma.calcDifficultyAdjustment blocksCache DATime nowSeconds blockHeight
        previousRetarget network latestBlockTimestamp).expectedBlocks = 1 ∧
      (Lwma.calcDifficultyAdjustment blocksCache DATime nowSeconds blockHeight
        previousRetarget network latestBlockTimestamp).nextRetargetHeight = blockHeight + 1) ∧
    ((Simple.calcDifficultyAdjustment blocksCache DATime nowSeconds blockHeight
        previousRetarget network latestBlockTimestamp).progressPercent = 100 ∧
      (Simple.calcDifficultyAdjustment blocksCache DATime nowSeconds blockHeight
        previousRetarget network latestBlockTimestamp).remainingBlocks = 1 ∧
      (Simple.calcDifficultyAdjustment blocksCache DATime nowSeconds blockHeight
        previousRetarget network latestBlockTimestamp).expectedBlocks = 1 ∧
      (Simple.calcDifficultyAdjustment blocksCache DATime nowSeconds blockHeight
        previousRetarget network latestBlockTimestamp).nextRetargetHeight = blockHeight + 1) :=
  ⟨⟨rfl, rfl, rfl, rfl⟩, ⟨rfl, rfl, rfl, rfl⟩, ⟨rfl, rfl, rfl, rfl⟩⟩

/-- Claim C9: `getDifficultyAdjustment` returns `null` precisely when the block
cache is empty; on a non-empty cache it returns a (fully populated) report —
for both cited wrappers, the ASERT file's and the LWMA variant file's. -/
theorem c9_none_iff_empty_cache (st : Asert.ApiState) (stL : Lwma.ApiState) :
    ((Asert.getDifficultyAdjustment st = none ↔ st.blocksCache = []) ∧
      (st.blocksCache ≠ [] → ∃ r, Asert.getDifficultyAdjustment st = some r)) ∧
    ((Lwma.getDifficultyAdjustment stL = none ↔ stL.blocksCache = []) ∧
      (stL.blocksCache ≠ [] → ∃ r, Lwma.getDifficultyAdjustment stL = some r)) := by
  constructor
  · unfold Asert.getDifficultyAdjustment
    rcases h : st.blocksCache.getLast? with _ | b
    · have he : st.blocksCache = [] := List.getLast?_eq_none_iff.mp h
      constructor
      · simp [he]
      · intro hne
        exact absurd he hne
    · have hne : st.blocksCache ≠ [] := by
        intro he
        rw [he] at h
        simp at h
      constructor
      · simp [hne]
      · intro _
        exact ⟨_, rfl⟩
  · unfold Lwma.getDifficultyAdjustment
    rcases h : stL.blocksCache.getLast? with _ | b
    · have he : stL.blocksCache = [] := List.getLast?_eq_none_iff.mp h
      constructor
      · simp [he]
      · intro hne
        exact absurd he hne
    · have hne : stL.blocksCache ≠ [] := by
        intro he
        rw [he] at h
        simp at h
      constructor
      · simp [hne]
      · intro _
        exact ⟨_, rfl⟩

/-- Claim C9 witness: a singleton cache yields a report in both wrappers. -/
theorem c9_none_iff_empty_cache_witness :
    ({ lastDifficultyAdjustmentTime := 0, previousDifficultyRetarget := 0,
       currentBlockHeight := 7, blocksCache := [⟨7, 1000, 100⟩], network := "mainnet",
       nowSeconds := 2000 } : Asert.ApiState).blocksCache ≠ [] ∧
    (∃ r, Asert.getDifficultyAdjustment
      { lastDifficultyAdjustmentTime := 0, previousDifficultyRetarget := 0,
        currentBlockHeight := 7, blocksCache := [⟨7, 1000, 100⟩], network := "mainnet",
        nowSeconds := 2000 } = some r) ∧
    ({ lastDifficultyAdjustmentTime := 0, previousDifficultyRetarget := 0,
       currentBlockHeight := 7, blocksCache := [⟨7, 1000, 100⟩], network := "mainnet",
       nowSeconds := 2000 } : Lwma.ApiState).blocksCache ≠ [] ∧
    ∃ r, Lwma.getDifficultyAdjustment
      { lastDifficultyAdjustmentTime := 0, previousDifficultyRetarget := 0,
        currentBlockHeight := 7, blocksCache := [⟨7, 1000, 100⟩], network := "mainnet",
        nowSeconds := 2000 } = some r :=
  ⟨by decide,
    (c9_none_iff_empty_cache
      { lastDifficultyAdjustmentTime := 0, previousDifficultyRetarget := 0,
        currentBlockHeight := 7, blocksCache := [⟨7, 1000, 100⟩], network := "mainnet",
        nowSeconds := 2000 }
      { lastDifficultyAdjustmentTime := 0, previousDifficultyRetarget := 0,
        currentBlockHeight := 7, blocksCache := [⟨7, 1000, 100⟩], network := "mainnet",
        nowSeconds := 2000 }).1.2 (by decide),
    by decide,
    (c9_none_iff_empty_cache
      { lastDifficultyAdjustmentTime := 0, previousDifficultyRetarget := 0,
        currentBlockHeight := 7, blocksCache := [⟨7, 1000, 100⟩], network := "mainnet",
        nowSeconds := 2000 }
      { lastDifficultyAdjustmentTime := 0, previousDifficultyRetarget := 0,
        currentBlockHeight := 7, blocksCache := [⟨7, 1000, 100⟩], network := "mainnet",
        nowSeconds := 2000 }).2.2 (by decide)⟩

/-- Claim C1 (amended): when `blocksAvailable = min(length − 1, 45) < 2`, the
ASERT and LWMA estimators return the neutral default
`difficultyChangePercent = 0` and `referenceSolveTimeSeconds = T = 150`, and
the assembled ASERT/LWMA reports show change 0 and block time 150 000 ms.
(The simple trailing-average variant does not: see the counterexample.) -/
theorem c1_neutral_default_asert_lwma (blocksCache : List Block)
    (DATime nowSeconds blockHeight : ℤ) (previousRetarget : ℚ)
    (network : String) (latestBlockTimestamp : ℤ)
    (h : min (blocksCache.length - 1) 45 < 2) :
    Asert.avgSolveTime blocksCache = 150 ∧
    Asert.difficultyChange blocksCache = 0 ∧
    Lwma.calculateLWMAEstimate blocksCache network = (0, 150) ∧
    (Asert.calcDifficultyAdjustment blocksCache DATime nowSeconds blockHeight
        previousRetarget network latestBlockTimestamp).difficultyChange = 0 ∧
    (Asert.calcDifficultyAdjustment blocksCache DATime nowSeconds blockHeight
        previousRetarget network latestBlockTimestamp).timeAvg = 150 * 1000 ∧
    (Lwma.calcDifficultyAdjustment blocksCache DATime nowSeconds blockHeight
        previousRetarget network latestBlockTimestamp).difficultyChange = 0 ∧
    (Lwma.calcDifficultyAdjustment blocksCache DATime nowSeconds blockHeight
        previousRetarget network latestBlockTimestamp).timeAvg = 150 * 1000 := by
  have hnb : blocksAvailable blocksCache < 2 := by rw [blocksAvailable_eq]; exact h
  have hlen : ¬ 3 ≤ blocksCache.length := by omega
  have hnb' : min ((sortByHeightDesc blocksCache).length - 1) 45 < 2 := by
    rw [sortByHeightDesc_length]; exact h
  refine ⟨?_, ?_, ?_, ?_, ?_, ?_, ?_⟩
  · simp only [Asert.avgSolveTime, if_pos hnb]
  · simp only [Asert.difficultyChange, if_pos hnb]
  · simp only [Lwma.calculateLWMAEstimate, if_pos hnb']
  · simp only [Asert.calcDifficultyAdjustment, if_neg hlen]
  · simp only [Asert.calcDifficultyAdjustment, if_neg hlen]
    norm_num
  · simp only [Lwma.calcDifficultyAdjustment, if_neg hlen]
  · simp only [Lwma.calcDifficultyAdjustment, if_neg hlen]
    norm_num

/-- Claim C1 witness: two cached blocks (so `blocksAvailable = 1 < 2`). -/
theorem c1_neutral_default_asert_lwma_witness :
    min (([(⟨0, 1000, 100⟩ : Block), ⟨1, 1200, 100⟩] : List Block).length - 1) 45 < 2 ∧
    (Asert.avgSolveTime [⟨0, 1000, 100⟩, ⟨1, 1200, 100⟩] = 150 ∧
      Asert.difficultyChange [⟨0, 1000, 100⟩, ⟨1, 1200, 100⟩] = 0 ∧
      Lwma.calculateLWMAEstimate [⟨0, 1000, 100⟩, ⟨1, 1200, 100⟩] "testnet" = (0, 150) ∧
      (Asert.calcDifficultyAdjustment [⟨0, 1000, 100⟩, ⟨1, 1200, 100⟩] 1 2000 5 7 "testnet"
          1200).difficultyChange = 0 ∧
      (Asert.calcDifficultyAdjustment [⟨0, 1000, 100⟩, ⟨1, 1200, 100⟩] 1 2000 5 7 "testnet"
          1200).timeAvg = 150 * 1000 ∧
      (Lwma.calcDifficultyAdjustment [⟨0, 1000, 100⟩, ⟨1, 1200, 100⟩] 1 2000 5 7 "testnet"
          1200).difficultyChange = 0 ∧
      (Lwma.calcDifficultyAdjustment [⟨0, 1000, 100⟩, ⟨1, 1200, 100⟩] 1 2000 5 7 "testnet"
          1200).timeAvg = 150 * 1000) :=
  ⟨by decide,
    c1_neutral_default_asert_lwma [⟨0, 1000, 100⟩, ⟨1, 1200, 100⟩] 1 2000 5 7 "testnet" 1200
      (by decide)⟩

/-- Claim C1 counterexample: with exactly two cached blocks
(`blocksAvailable = 1 < 2`) the simple trailing-average variant reports the
pass-through `previousRetarget = 7 ≠ 0` as the difficulty change and the raw
200-second spacing (≠ T = 150) as the block time. -/
theorem c1_simple_variant_counterexample :
    min (([(⟨0, 1000, 100⟩ : Block), ⟨1, 1200, 100⟩] : List Block).length - 1) 45 < 2 ∧
    (Simple.calcDifficultyAdjustment [⟨0, 1000, 100⟩, ⟨1, 1200, 100⟩] 0 0 0 7 "mainnet"
        0).difficultyChange = 7 ∧
    (7 : ℚ) ≠ 0 ∧
    (Simple.calcDifficultyAdjustment [⟨0, 1000, 100⟩, ⟨1, 1200, 100⟩] 0 0 0 7 "mainnet"
        0).timeAvg = 200 * 1000 ∧
    (200 * 1000 : ℤ) ≠ 150 * 1000 := by
  refine ⟨by decide, rfl, by norm_num, ?_, by decide⟩
  norm_num [Simple.calcDifficultyAdjustment, Simple.timeAvgSecs]

/-- Claim C3: on testnet, once the reference solve time has been clamped to the
1200-second ceiling, `timeOffset` is `−min(secondsSinceLastBlock, 1200)·1000`
exactly when `secondsSinceLastBlock + referenceSolveTime > 1200`, and `0`
otherwise; on any other network it is always `0` — for both the ASERT and the
LWMA variant. -/
theorem c3_testnet_time_offset (blocksCache : List Block)
    (DATime nowSeconds blockHeight : ℤ) (previousRetarget : ℚ)
    (network : String) (latestBlockTimestamp : ℤ) :
    ((network = "testnet" →
        (Asert.calcDifficultyAdjustment blocksCache DATime nowSeconds blockHeight
            previousRetarget network latestBlockTimestamp).timeOffset =
          if 1200 < ((nowSeconds - latestBlockTimestamp : ℤ) : ℚ) +
              min (if 3 ≤ blocksCache.length then Asert.avgSolveTime blocksCache else 150) 1200
          then -(min (nowSeconds - latestBlockTimestamp) 1200) * 1000
          else 0) ∧
      (network ≠ "testnet" →
        (Asert.calcDifficultyAdjustment blocksCache DATime nowSeconds blockHeight
            previousRetarget network latestBlockTimestamp).timeOffset = 0)) ∧
    ((network = "testnet" →
        (Lwma.calcDifficultyAdjustment blocksCache DATime nowSeconds blockHeight
            previousRetarget network latestBlockTimestamp).timeOffset =
          if 1200 < ((nowSeconds - latestBlockTimestamp : ℤ) : ℚ) +
              min (if 3 ≤ blocksCache.length
                   then (Lwma.calculateLWMAEstimate blocksCache network).2 else 150) 1200
          then -(min (nowSeconds - latestBlockTimestamp) 1200) * 1000
          else 0) ∧
      (network ≠ "testnet" →
        (Lwma.calcDifficultyAdjustment blocksCache DATime nowSeconds blockHeight
            previousRetarget network latestBlockTimestamp).timeOffset = 0)) := by
  refine ⟨⟨fun hnet => ?_, fun hnet => ?_⟩, ⟨fun hnet => ?_, fun hnet => ?_⟩⟩
  · simp [Asert.calcDifficultyAdjustment, hnet, ite_ceil_eq_min]
  · simp [Asert.calcDifficultyAdjustment, hnet]
  · simp [Lwma.calcDifficultyAdjustment, hnet, ite_ceil_eq_min, apply_ite Prod.snd]
  · simp [Lwma.calcDifficultyAdjustment, hnet]

/-- Claim C3 witness: empty cache on testnet, 5000 s since the last block. -/
theorem c3_testnet_time_offset_witness :
    (Asert.calcDifficultyAdjustment [] 0 5000 10 0 "testnet" 0).timeOffset = -1200000 ∧
    (Lwma.calcDifficultyAdjustment [] 0 5000 10 0 "testnet" 0).timeOffset = -1200000 := by
  have h := c3_testnet_time_offset [] 0 5000 10 0 "testnet" 0
  constructor
  · rw [h.1.1 rfl]
    norm_num [min_eq_left (by norm_num : (150 : ℚ) ≤ 1200)]
  · rw [h.2.1 rfl]
    norm_num [min_eq_left (by norm_num : (150 : ℚ) ≤ 1200)]

/-! ## Spec-side formulation of the LWMA weighted average (ascending weights,
oldest first), used to compare the code against the spec's wording. -/

/-- From the spec (§4.3a): `Σ(solveTime·weight)` with ascending integer weights
`1..n` assigned from oldest to newest; pair `j` from the oldest is pair
`n - 1 - j` in the code's newest-first order. -/
def specAscWeightedSum (sorted : List Block) (n : ℕ) : ℤ :=
  ∑ j ∈ Finset.range n, pairSolveTime sorted (n - 1 - j) * ((j : ℤ) + 1)

/-- From the spec (§4.3a): `Σ(weight)` for weights `1..n`. -/
def specAscWeightSum (n : ℕ) : ℤ :=
  ∑ j ∈ Finset.range n, ((j : ℤ) + 1)

/-- From the spec (§4.3a): `weightedAvg = Σ(solveTime·weight) / Σ(weight)`. -/
def specWeightedAvg (sorted : List Block) (n : ℕ) : ℚ :=
  (specAscWeightedSum sorted n : ℚ) / (specAscWeightSum n : ℚ)

/-- From the spec (§4.3a): WMA v1 difficulty change
`(T/weightedAvg − 1) × 100`, clamped to `[−90, 100]` percent. -/
def specV1Change (sorted : List Block) (n : ℕ) : ℚ :=
  max (-90) (min 100 ((150 / specWeightedAvg sorted n - 1) * 100))

/-- From the spec (§4.3b): WMA v2 `ratio = weightedSum / (Σweight · T)`,
`projectedDifficulty = windowStartDifficulty / ratio`,
`change = (projectedDifficulty − currentDifficulty) / currentDifficulty × 100`,
clamped to `[−66.67, 200]` percent. -/
def specV2Change (sorted : List Block) (n : ℕ) : ℚ :=
  let currentDifficulty := (sorted.getD 0 default).difficulty
  let windowStartDifficulty := (sorted.getD n default).difficulty
  let r : ℚ := (specAscWeightedSum sorted n : ℚ) / ((specAscWeightSum n : ℚ) * 150)
  let projectedDifficulty := windowStartDifficulty / r
  max (-6667 / 100) (min 200 ((projectedDifficulty - currentDifficulty) / currentDifficulty * 100))

theorem specAscWeightedSum_eq (sorted : List Block) (n : ℕ) :
    specAscWeightedSum sorted n = Lwma.sumWeightedSolvetimes sorted n := by
  rw [Lwma.sumWeightedSolvetimes,
    ← Finset.sum_range_reflect (fun i => pairSolveTime sorted i * ((n - i : ℕ) : ℤ)) n,
    specAscWeightedSum]
  apply Finset.sum_congr rfl
  intro j hj
  simp only [Finset.mem_range] at hj
  have hw : ((n - (n - 1 - j) : ℕ) : ℤ) = (j : ℤ) + 1 := by omega
  simp only [hw]

theorem specAscWeightSum_eq (n : ℕ) : specAscWeightSum n = Lwma.sumWeights n := by
  rw [Lwma.sumWeights, ← Finset.sum_range_reflect (fun i => ((n - i : ℕ) : ℤ)) n,
    specAscWeightSum]
  apply Finset.sum_congr rfl
  intro j hj
  simp only [Finset.mem_range] at hj
  have hw : ((n - (n - 1 - j) : ℕ) : ℤ) = (j : ℤ) + 1 := by omega
  simp only [hw]

/-- The source's two sequential cap assignments equal a `max`/`min` clamp. -/
theorem seqClamp_eq_max_min (lo hi x : ℚ) (h : lo ≤ hi) :
    (if (if hi < x then hi else x) < lo then lo
     else (if hi < x then hi else x)) = max lo (min hi x) := by
  rcases lt_or_le hi x with h1 | h1
  · rw [if_pos h1, if_neg (not_lt.mpr h), min_eq_left h1.le, max_eq_right h]
  · rw [if_neg (not_lt.mpr h1), min_eq_right h1]
    rcases lt_or_le x lo with h2 | h2
    · rw [if_pos h2, max_eq_left h2.le]
    · rw [if_neg (not_lt.mpr h2), max_eq_right h2]

theorem lwmaEstimate_snd (cache : List Block) (network : String)
    (h : 2 ≤ blocksAvailable cache) :
    (Lwma.calculateLWMAEstimate cache network).2 =
      specWeightedAvg (sortByHeightDesc cache) (blocksAvailable cache) := by
  have hb : blocksAvailable cache = min ((sortByHeightDesc cache).length - 1) 45 := rfl
  have hn : ¬ min ((sortByHeightDesc cache).length - 1) 45 < 2 := by
    rw [← hb]; omega
  have hW : ¬ Lwma.sumWeights (min ((sortByHeightDesc cache).length - 1) 45) = 0 := by
    rw [← hb]; exact (sumWeights_pos _ (by omega)).ne'
  simp only [Lwma.calculateLWMAEstimate, if_neg hn, if_neg hW]
  rw [specWeightedAvg, specAscWeightedSum_eq, specAscWeightSum_eq, hb]

theorem lwmaEstimate_fst_v1 (cache : List Block) (network : String)
    (h : 2 ≤ blocksAvailable cache)
    (hsel : ¬ ((if network = "testnet" then (200 : ℤ) else 1244300) ≤
        ((sortByHeightDesc cache).getD 0 default).height ∧ 3 ≤ blocksAvailable cache)) :
    (Lwma.calculateLWMAEstimate cache network).1 =
      specV1Change (sortByHeightDesc cache) (blocksAvailable cache) := by
  have hb : blocksAvailable cache = min ((sortByHeightDesc cache).length - 1) 45 := rfl
  have hn : ¬ min ((sortByHeightDesc cache).length - 1) 45 < 2 := by
    rw [← hb]; omega
  have hW : ¬ Lwma.sumWeights (min ((sortByHeightDesc cache).length - 1) 45) = 0 := by
    rw [← hb]; exact (sumWeights_pos _ (by omega)).ne'
  rw [hb] at hsel
  simp only [Lwma.calculateLWMAEstimate, if_neg hn, if_neg hW, if_neg hsel]
  rw [seqClamp_eq_max_min _ _ _ (by norm_num)]
  rw [specV1Change, specWeightedAvg, specAscWeightedSum_eq, specAscWeightSum_eq, hb]

theorem lwmaEstimate_fst_v2 (cache : List Block) (network : String)
    (h : 2 ≤ blocksAvailable cache)
    (hsel : (if network = "testnet" then (200 : ℤ) else 1244300) ≤
        ((sortByHeightDesc cache).getD 0 default).height ∧ 3 ≤ blocksAvailable cache)
    (hwsd : ((sortByHeightDesc cache).getD (blocksAvailable cache) default).difficulty ≠ 0) :
    (Lwma.calculateLWMAEstimate cache network).1 =
      specV2Change (sortByHeightDesc cache) (blocksAvailable cache) := by
  have hb : blocksAvailable cache = min ((sortByHeightDesc cache).length - 1) 45 := rfl
  have hn : ¬ min ((sortByHeightDesc cache).length - 1) 45 < 2 := by
    rw [← hb]; omega
  have hW : ¬ Lwma.sumWeights (min ((sortByHeightDesc cache).length - 1) 45) = 0 := by
    rw [← hb]; exact (sumWeights_pos _ (by omega)).ne'
  rw [hb] at hsel hwsd
  simp only [Lwma.calculateLWMAEstimate, if_neg hn, if_neg hW, if_pos hsel, if_neg hwsd]
  rw [seqClamp_eq_max_min _ _ _ (by norm_num)]
  rw [specV2Change]
  rw [specAscWeightedSum_eq, specAscWeightSum_eq, hb]

/-- Claim C4: once a window is available (`blocksAvailable ≥ 2`) and the
window-start difficulty is non-zero, LWMA v2 is used exactly when the highest
cached height reaches the per-network activation height (1244300 mainnet,
200 testnet) and `blocksAvailable ≥ 3`; v2 then computes
`ratio = weightedSum/(Σweight·T)`, projects `windowStartDifficulty/ratio` and
clamps the percent change to `[−66.67, 200]`; otherwise the v1 formula is used. -/
theorem c4_lwma_v2_selection_and_formula (cache : List Block) (network : String)
    (h : 2 ≤ blocksAvailable cache)
    (hwsd : ((sortByHeightDesc cache).getD (blocksAvailable cache) default).difficulty ≠ 0) :
    Lwma.calculateLWMAEstimate cache network =
      (if (if network = "testnet" then (200 : ℤ) else 1244300) ≤
            ((sortByHeightDesc cache).getD 0 default).height ∧ 3 ≤ blocksAvailable cache
       then specV2Change (sortByHeightDesc cache) (blocksAvailable cache)
       else specV1Change (sortByHeightDesc cache) (blocksAvailable cache),
       specWeightedAvg (sortByHeightDesc cache) (blocksAvailable cache)) := by
  by_cases hc : (if network = "testnet" then (200 : ℤ) else 1244300) ≤
      ((sortByHeightDesc cache).getD 0 default).height ∧ 3 ≤ blocksAvailable cache
  · rw [if_pos hc]
    exact Prod.ext_iff.mpr ⟨lwmaEstimate_fst_v2 cache network h hc hwsd,
      lwmaEstimate_snd cache network h⟩
  · rw [if_neg hc]
    exact Prod.ext_iff.mpr ⟨lwmaEstimate_fst_v1 cache network h hc,
      lwmaEstimate_snd cache network h⟩

/-- Claim C5: when v1 is selected (below the activation height, or
`blocksAvailable < 3`), the LWMA estimator returns the ascending-weight
weighted average `Σ(solveTime·weight)/Σ(weight)` (weights `1..n`, oldest to
newest) and the change `(T/weightedAvg − 1)×100` clamped to `[−90, 100]`. -/
theorem c5_lwma_v1_formula (cache : List Block) (network : String)
    (h : 2 ≤ blocksAvailable cache)
    (hsel : ¬ ((if network = "testnet" then (200 : ℤ) else 1244300) ≤
        ((sortByHeightDesc cache).getD 0 default).height ∧ 3 ≤ blocksAvailable cache)) :
    Lwma.calculateLWMAEstimate cache network =
      (specV1Change (sortByHeightDesc cache) (blocksAvailable cache),
       specWeightedAvg (sortByHeightDesc cache) (blocksAvailable cache)) :=
  Prod.ext_iff.mpr ⟨lwmaEstimate_fst_v1 cache network h hsel,
    lwmaEstimate_snd cache network h⟩

/-- Claim C4 witness: four mainnet blocks at heights ≥ 1244300 (v2 active). -/
theorem c4_lwma_v2_selection_and_formula_witness :
    2 ≤ blocksAvailable [⟨1244300, 0, 100⟩, ⟨1244301, 150, 100⟩,
        ⟨1244302, 300, 100⟩, ⟨1244303, 450, 100⟩] ∧
    ((sortByHeightDesc [⟨1244300, 0, 100⟩, ⟨1244301, 150, 100⟩, ⟨1244302, 300, 100⟩,
          ⟨1244303, 450, 100⟩]).getD
        (blocksAvailable [⟨1244300, 0, 100⟩, ⟨1244301, 150, 100⟩, ⟨1244302, 300, 100⟩,
          ⟨1244303, 450, 100⟩]) default).difficulty ≠ 0 ∧
    Lwma.calculateLWMAEstimate [⟨1244300, 0, 100⟩, ⟨1244301, 150, 100⟩, ⟨1244302, 300, 100⟩,
        ⟨1244303, 450, 100⟩] "mainnet" =
      (if (if ("mainnet" : String) = "testnet" then (200 : ℤ) else 1244300) ≤
            ((sortByHeightDesc [⟨1244300, 0, 100⟩, ⟨1244301, 150, 100⟩, ⟨1244302, 300, 100⟩,
                ⟨1244303, 450, 100⟩]).getD 0 default).height ∧
            3 ≤ blocksAvailable [⟨1244300, 0, 100⟩, ⟨1244301, 150, 100⟩, ⟨1244302, 300, 100⟩,
                ⟨1244303, 450, 100⟩]
       then specV2Change (sortByHeightDesc [⟨1244300, 0, 100⟩, ⟨1244301, 150, 100⟩,
              ⟨1244302, 300, 100⟩, ⟨1244303, 450, 100⟩])
              (blocksAvailable [⟨1244300, 0, 100⟩, ⟨1244301, 150, 100⟩, ⟨1244302, 300, 100⟩,
                ⟨1244303, 450, 100⟩])
       else specV1Change (sortByHeightDesc [⟨1244300, 0, 100⟩, ⟨1244301, 150, 100⟩,
              ⟨1244302, 300, 100⟩, ⟨1244303, 450, 100⟩])
              (blocksAvailable [⟨1244300, 0, 100⟩, ⟨1244301, 150, 100⟩, ⟨1244302, 300, 100⟩,
                ⟨1244303, 450, 100⟩]),
       specWeightedAvg (sortByHeightDesc [⟨1244300, 0, 100⟩, ⟨1244301, 150, 100⟩,
           ⟨1244302, 300, 100⟩, ⟨1244303, 450, 100⟩])
         (blocksAvailable [⟨1244300, 0, 100⟩, ⟨1244301, 150, 100⟩, ⟨1244302, 300, 100⟩,
           ⟨1244303, 450, 100⟩])) :=
  ⟨by decide, by decide,
    c4_lwma_v2_selection_and_formula _ "mainnet" (by decide) (by decide)⟩

/-- Claim C5 witness: four blocks at heights 0–3 (below activation, v1). -/
theorem c5_lwma_v1_formula_witness :
    2 ≤ blocksAvailable [⟨0, 0, 100⟩, ⟨1, 100, 100⟩, ⟨2, 200, 100⟩, ⟨3, 300, 100⟩] ∧
    ¬ ((if ("mainnet" : String) = "testnet" then (200 : ℤ) else 1244300) ≤
        ((sortByHeightDesc [(⟨0, 0, 100⟩ : Block), ⟨1, 100, 100⟩, ⟨2, 200, 100⟩,
            ⟨3, 300, 100⟩]).getD 0 default).height ∧
        3 ≤ blocksAvailable [⟨0, 0, 100⟩, ⟨1, 100, 100⟩, ⟨2, 200, 100⟩, ⟨3, 300, 100⟩]) ∧
    Lwma.calculateLWMAEstimate [⟨0, 0, 100⟩, ⟨1, 100, 100⟩, ⟨2, 200, 100⟩, ⟨3, 300, 100⟩]
        "mainnet" =
      (specV1Change (sortByHeightDesc [⟨0, 0, 100⟩, ⟨1, 100, 100⟩, ⟨2, 200, 100⟩,
          ⟨3, 300, 100⟩])
        (blocksAvailable [⟨0, 0, 100⟩, ⟨1, 100, 100⟩, ⟨2, 200, 100⟩, ⟨3, 300, 100⟩]),
       specWeightedAvg (sortByHeightDesc [⟨0, 0, 100⟩, ⟨1, 100, 100⟩, ⟨2, 200, 100⟩,
           ⟨3, 300, 100⟩])
         (blocksAvailable [⟨0, 0, 100⟩, ⟨1, 100, 100⟩, ⟨2, 200, 100⟩, ⟨3, 300, 100⟩])) :=
  ⟨by decide, by decide, c5_lwma_v1_formula _ "mainnet" (by decide) (by decide)⟩

/-- Claim C10: with `blocksAvailable ≥ 2`, the ASERT average solve time and the
LWMA weighted average both lie in `[1, 900]` (inherited from the per-pair
clamp), so the 1200-second testnet ceiling in `calcDifficultyAdjustment` never
alters them: the reported `timeAvg` is always `⌊avg · 1000⌋`, on every network. -/
theorem c10_reference_solve_time_within_clamp (cache : List Block)
    (DATime nowSeconds blockHeight : ℤ) (previousRetarget : ℚ)
    (network : String) (latestBlockTimestamp : ℤ)
    (h : 2 ≤ blocksAvailable cache) :
    (1 ≤ Asert.avgSolveTime cache ∧ Asert.avgSolveTime cache ≤ 900) ∧
    (1 ≤ (Lwma.calculateLWMAEstimate cache network).2 ∧
      (Lwma.calculateLWMAEstimate cache network).2 ≤ 900) ∧
    (Asert.calcDifficultyAdjustment cache DATime nowSeconds blockHeight
        previousRetarget network latestBlockTimestamp).timeAvg =
      ⌊Asert.avgSolveTime cache * 1000⌋ ∧
    (Lwma.calcDifficultyAdjustment cache DATime nowSeconds blockHeight
        previousRetarget network latestBlockTimestamp).timeAvg =
      ⌊(Lwma.calculateLWMAEstimate cache network).2 * 1000⌋ := by
  have hlen3 : 3 ≤ cache.length := by
    rw [blocksAvailable_eq] at h
    omega
  have hA := avgSolveTime_bounds cache h
  have hL : 1 ≤ (Lwma.calculateLWMAEstimate cache network).2 ∧
      (Lwma.calculateLWMAEstimate cache network).2 ≤ 900 := by
    rw [lwmaEstimate_snd cache network h, specWeightedAvg, specAscWeightedSum_eq,
      specAscWeightSum_eq]
    exact lwmaWeightedAvg_bounds (sortByHeightDesc cache) (blocksAvailable cache) (by omega)
  refine ⟨hA, hL, ?_, ?_⟩
  · have hcon : ¬ (network = "testnet" ∧ 1200 < Asert.avgSolveTime cache) := by
      rintro ⟨-, hgt⟩
      linarith [hA.2]
    simp only [Asert.calcDifficultyAdjustment, if_pos hlen3, if_neg hcon]
  · have hcon : ¬ (network = "testnet" ∧
        1200 < (Lwma.calculateLWMAEstimate cache network).2) := by
      rintro ⟨-, hgt⟩
      linarith [hL.2]
    simp only [Lwma.calcDifficultyAdjustment, if_pos hlen3, if_neg hcon]

/-- Claim C10 witness: three testnet blocks spaced 150 s. -/
theorem c10_reference_solve_time_within_clamp_witness :
    2 ≤ blocksAvailable [⟨0, 0, 100⟩, ⟨1, 150, 100⟩, ⟨2, 300, 100⟩] ∧
    ((1 ≤ Asert.avgSolveTime [⟨0, 0, 100⟩, ⟨1, 150, 100⟩, ⟨2, 300, 100⟩] ∧
        Asert.avgSolveTime [⟨0, 0, 100⟩, ⟨1, 150, 100⟩, ⟨2, 300, 100⟩] ≤ 900) ∧
      (1 ≤ (Lwma.calculateLWMAEstimate [⟨0, 0, 100⟩, ⟨1, 150, 100⟩, ⟨2, 300, 100⟩]
            "testnet").2 ∧
        (Lwma.calculateLWMAEstimate [⟨0, 0, 100⟩, ⟨1, 150, 100⟩, ⟨2, 300, 100⟩]
            "testnet").2 ≤ 900) ∧
      (Asert.calcDifficultyAdjustment [⟨0, 0, 100⟩, ⟨1, 150, 100⟩, ⟨2, 300, 100⟩] 0 400 2 0
          "testnet" 300).timeAvg =
        ⌊Asert.avgSolveTime [⟨0, 0, 100⟩, ⟨1, 150, 100⟩, ⟨2, 300, 100⟩] * 1000⌋ ∧
      (Lwma.calcDifficultyAdjustment [⟨0, 0, 100⟩, ⟨1, 150, 100⟩, ⟨2, 300, 100⟩] 0 400 2 0
          "testnet" 300).timeAvg =
        ⌊(Lwma.calculateLWMAEstimate [⟨0, 0, 100⟩, ⟨1, 150, 100⟩, ⟨2, 300, 100⟩]
            "testnet").2 * 1000⌋) :=
  ⟨by decide,
    c10_reference_solve_time_within_clamp [⟨0, 0, 100⟩, ⟨1, 150, 100⟩, ⟨2, 300, 100⟩]
      0 400 2 0 "testnet" 300 (by decide)⟩

/-! ## Bounds on the ASERT exponential at one clamped halflife of deviation -/

theorem two_rpow_neg524_pow : ((2 : ℝ) ^ ((-5 / 24 : ℝ))) ^ (24 : ℕ) = 1 / 32 := by
  rw [← Real.rpow_natCast ((2 : ℝ) ^ ((-5 / 24 : ℝ))) 24, ← Real.rpow_mul (by norm_num)]
  norm_num

theorem two_rpow_neg524_gt : (0.86 : ℝ) < (2 : ℝ) ^ ((-5 / 24 : ℝ)) := by
  apply lt_of_pow_lt_pow_left₀ 24 (Real.rpow_pos_of_pos (by norm_num) _).le
  rw [two_rpow_neg524_pow]
  norm_num

theorem two_rpow_neg524_lt : (2 : ℝ) ^ ((-5 / 24 : ℝ)) < 0.87 := by
  apply lt_of_pow_lt_pow_left₀ 24 (by norm_num)
  rw [two_rpow_neg524_pow]
  norm_num

/-- When the average solve time is pinned at the 900-second clamp, the ASERT
change is `(2^(−5/24) − 1)·100`, which lies strictly between −14 and −13. -/
theorem asert_change_of_avg_900 (cache : List Block)
    (h2 : ¬ blocksAvailable cache < 2) (havg : Asert.avgSolveTime cache = 900) :
    (-14 : ℝ) < Asert.difficultyChange cache ∧ Asert.difficultyChange cache < -13 := by
  have hexp : ((150 : ℝ) - ((900 : ℚ) : ℝ)) / 3600 = -5 / 24 := by
    push_cast
    norm_num
  simp only [Asert.difficultyChange, if_neg h2, havg, hexp]
  constructor
  · nlinarith [two_rpow_neg524_gt]
  · nlinarith [two_rpow_neg524_lt]

/-- Claim C2 (amended): when every raw adjacent-pair solve time in the window
is at least 900 s (for example blocks spaced exactly 3750 s apart), the clamp
pins every solve time at `6·T = 900` s, so the ASERT estimator returns
`avgSolveTime = 900` and `difficultyChangePercent = (2^((150−900)/3600) − 1)·100
≈ −13.45` (strictly between −14 and −13) — not ≈ −50. -/
theorem c2_asert_spacing_3750_clamped (cache : List Block)
    (h : 2 ≤ blocksAvailable cache)
    (hraw : ∀ i < blocksAvailable cache,
      900 ≤ ((sortByHeightDesc cache).getD i default).timestamp -
        ((sortByHeightDesc cache).getD (i + 1) default).timestamp) :
    Asert.avgSolveTime cache = 900 ∧
    (-14 : ℝ) < Asert.difficultyChange cache ∧ Asert.difficultyChange cache < -13 := by
  have hps : ∀ i ∈ Finset.range (blocksAvailable cache),
      pairSolveTime (sortByHeightDesc cache) i = 900 := by
    intro i hi
    simp only [Finset.mem_range] at hi
    have := hraw i hi
    simp only [pairSolveTime, clampSolveTime]
    split_ifs <;> omega
  have htotal : Asert.totalSolveTime (sortByHeightDesc cache) (blocksAvailable cache) =
      900 * blocksAvailable cache := by
    rw [Asert.totalSolveTime, Finset.sum_congr rfl hps]
    simp [mul_comm]
  have havg : Asert.avgSolveTime cache = 900 := by
    have hne : (blocksAvailable cache : ℚ) ≠ 0 := by
      have : 0 < blocksAvailable cache := by omega
      exact_mod_cast this.ne'
    simp only [Asert.avgSolveTime, if_neg (not_lt.mpr h), htotal]
    push_cast
    field_simp
  exact ⟨havg, asert_change_of_avg_900 cache (not_lt.mpr h) havg⟩

/-- Claim C2 witness: four blocks spaced exactly 3750 s apart. -/
theorem c2_asert_spacing_3750_clamped_witness :
    2 ≤ blocksAvailable [⟨0, 0, 100⟩, ⟨1, 3750, 100⟩, ⟨2, 7500, 100⟩, ⟨3, 11250, 100⟩] ∧
    (∀ i < blocksAvailable [⟨0, 0, 100⟩, ⟨1, 3750, 100⟩, ⟨2, 7500, 100⟩, ⟨3, 11250, 100⟩],
      900 ≤ ((sortByHeightDesc [⟨0, 0, 100⟩, ⟨1, 3750, 100⟩, ⟨2, 7500, 100⟩,
            ⟨3, 11250, 100⟩]).getD i default).timestamp -
          ((sortByHeightDesc [⟨0, 0, 100⟩, ⟨1, 3750, 100⟩, ⟨2, 7500, 100⟩,
            ⟨3, 11250, 100⟩]).getD (i + 1) default).timestamp) ∧
    (Asert.avgSolveTime [⟨0, 0, 100⟩, ⟨1, 3750, 100⟩, ⟨2, 7500, 100⟩, ⟨3, 11250, 100⟩] = 900 ∧
      (-14 : ℝ) < Asert.difficultyChange [⟨0, 0, 100⟩, ⟨1, 3750, 100⟩, ⟨2, 7500, 100⟩,
          ⟨3, 11250, 100⟩] ∧
      Asert.difficultyChange [⟨0, 0, 100⟩, ⟨1, 3750, 100⟩, ⟨2, 7500, 100⟩,
          ⟨3, 11250, 100⟩] < -13) :=
  ⟨by decide, by decide,
    c2_asert_spacing_3750_clamped [⟨0, 0, 100⟩, ⟨1, 3750, 100⟩, ⟨2, 7500, 100⟩, ⟨3, 11250, 100⟩]
      (by decide) (by decide)⟩

/-- Claim C2 counterexample: four blocks spaced exactly 3750 s apart give an
ASERT `difficultyChangePercent` strictly between −14 and −13 — nowhere near
the claimed ≈ −50 (the clamp caps the average solve time at 900 s, as the
repository's own test file documents). -/
theorem c2_asert_spacing_3750_counterexample :
    (-14 : ℝ) < Asert.difficultyChange [⟨3, 11250, 100⟩, ⟨2, 7500, 100⟩, ⟨1, 3750, 100⟩,
        ⟨0, 0, 100⟩] ∧
    Asert.difficultyChange [⟨3, 11250, 100⟩, ⟨2, 7500, 100⟩, ⟨1, 3750, 100⟩,
        ⟨0, 0, 100⟩] < -13 := by
  apply asert_change_of_avg_900
  · decide
  · norm_num [Asert.avgSolveTime, Asert.totalSolveTime, blocksAvailable, sortByHeightDesc,
      insertByHeightDesc, pairSolveTime, clampSolveTime, Finset.sum_range_succ]

theorem specWeightedAvg_bounds (sorted : List Block) (n : ℕ) (h : 0 < n) :
    1 ≤ specWeightedAvg sorted n ∧ specWeightedAvg sorted n ≤ 900 := by
  rw [specWeightedAvg, specAscWeightedSum_eq, specAscWeightSum_eq]
  exact lwmaWeightedAvg_bounds sorted n h

/-- On a strict increase of the weighted solve-time sum, the spec's v1
percentage (capped to `[−90, 100]`) decreases weakly. -/
theorem specV1Change_le (sortedA sortedB : List Block) (n : ℕ) (hn : 0 < n)
    (hws : Lwma.sumWeightedSolvetimes sortedA n < Lwma.sumWeightedSolvetimes sortedB n) :
    specV1Change sortedB n ≤ specV1Change sortedA n := by
  have hWq : (0 : ℚ) < (Lwma.sumWeights n : ℚ) := by exact_mod_cast sumWeights_pos n hn
  have hAB : specWeightedAvg sortedA n < specWeightedAvg sortedB n := by
    rw [specWeightedAvg, specWeightedAvg, specAscWeightedSum_eq, specAscWeightedSum_eq,
      specAscWeightSum_eq]
    exact (div_lt_div_iff_of_pos_right hWq).mpr (by exact_mod_cast hws)
  have hbA : 1 ≤ specWeightedAvg sortedA n := (specWeightedAvg_bounds sortedA n hn).1
  have h150 : 150 / specWeightedAvg sortedB n < 150 / specWeightedAvg sortedA n :=
    div_lt_div_of_pos_left (by norm_num) (by linarith) hAB
  rw [specV1Change, specV1Change]
  apply max_le_max le_rfl
  apply min_le_min le_rfl
  nlinarith

/-- On a strict increase of the weighted solve-time sum, with the boundary
difficulties held fixed and positive, the spec's v2 percentage (capped to
`[−66.67, 200]`) decreases weakly. -/
theorem specV2Change_le (sortedA sortedB : List Block) (n : ℕ) (hn : 0 < n)
    (hcd : (sortedB.getD 0 default).difficulty = (sortedA.getD 0 default).difficulty)
    (hcdpos : 0 < (sortedA.getD 0 default).difficulty)
    (hwd : (sortedB.getD n default).difficulty = (sortedA.getD n default).difficulty)
    (hwdpos : 0 < (sortedA.getD n default).difficulty)
    (hws : Lwma.sumWeightedSolvetimes sortedA n < Lwma.sumWeightedSolvetimes sortedB n) :
    specV2Change sortedB n ≤ specV2Change sortedA n := by
  have hWq : (0 : ℚ) < (specAscWeightSum n : ℚ) := by
    rw [specAscWeightSum_eq]
    exact_mod_cast sumWeights_pos n hn
  have hden : (0 : ℚ) < (specAscWeightSum n : ℚ) * 150 := by positivity
  have hwsq : (specAscWeightedSum sortedA n : ℚ) < (specAscWeightedSum sortedB n : ℚ) := by
    rw [specAscWeightedSum_eq, specAscWeightedSum_eq]
    exact_mod_cast hws
  have hApos : (0 : ℚ) < (specAscWeightedSum sortedA n : ℚ) := by
    rw [specAscWeightedSum_eq]
    have h1 := (sumWeightedSolvetimes_bounds sortedA n).1
    have h2 := sumWeights_pos n hn
    exact_mod_cast lt_of_lt_of_le h2 h1
  have hrA : (0 : ℚ) < (specAscWeightedSum sortedA n : ℚ) / ((specAscWeightSum n : ℚ) * 150) :=
    div_pos hApos hden
  have hrAB : (specAscWeightedSum sortedA n : ℚ) / ((specAscWeightSum n : ℚ) * 150) ≤
      (specAscWeightedSum sortedB n : ℚ) / ((specAscWeightSum n : ℚ) * 150) :=
    ((div_lt_div_iff_of_pos_right hden).mpr hwsq).le
  have hproj : (sortedA.getD n default).difficulty /
      ((specAscWeightedSum sortedB n : ℚ) / ((specAscWeightSum n : ℚ) * 150)) ≤
      (sortedA.getD n default).difficulty /
      ((specAscWeightedSum sortedA n : ℚ) / ((specAscWeightSum n : ℚ) * 150)) :=
    div_le_div_of_nonneg_left hwdpos.le hrA hrAB
  simp only [specV2Change]
  rw [hcd, hwd]
  apply max_le_max le_rfl
  apply min_le_min le_rfl
  have hsub := sub_le_sub_right hproj (sortedA.getD 0 default).difficulty
  have hdiv := (div_le_div_iff_of_pos_right hcdpos).mpr hsub
  nlinarith

/-- Claim C8 (amended): with the window size fixed, the non-timestamp inputs
(top height, current and window-start difficulties, the latter positive) held
fixed, and every *clamped* per-pair solve time strictly larger, the ASERT
average and the LWMA weighted average strictly increase and the ASERT
`difficultyChangePercent` strictly decreases; the returned LWMA
`difficultyChangePercent` decreases only weakly, in the v1 branch and in the v2
branch alike — the `[−90, 100]` (v1) and `[−66.67, 200]` (v2) caps can pin both
outputs to the same value. -/
theorem c8_monotonicity_amended (cacheA cacheB : List Block) (network : String)
    (h2 : 2 ≤ blocksAvailable cacheA)
    (hlen : blocksAvailable cacheA = blocksAvailable cacheB)
    (hlt : ∀ i < blocksAvailable cacheA,
      pairSolveTime (sortByHeightDesc cacheA) i < pairSolveTime (sortByHeightDesc cacheB) i)
    (hh0 : ((sortByHeightDesc cacheB).getD 0 default).height =
        ((sortByHeightDesc cacheA).getD 0 default).height)
    (hcd : ((sortByHeightDesc cacheB).getD 0 default).difficulty =
        ((sortByHeightDesc cacheA).getD 0 default).difficulty)
    (hcdpos : 0 < ((sortByHeightDesc cacheA).getD 0 default).difficulty)
    (hwd : ((sortByHeightDesc cacheB).getD (blocksAvailable cacheB) default).difficulty =
        ((sortByHeightDesc cacheA).getD (blocksAvailable cacheA) default).difficulty)
    (hwdpos : 0 < ((sortByHeightDesc cacheA).getD (blocksAvailable cacheA) default).difficulty) :
    Asert.avgSolveTime cacheA < Asert.avgSolveTime cacheB ∧
    Asert.difficultyChange cacheB < Asert.difficultyChange cacheA ∧
    (Lwma.calculateLWMAEstimate cacheA network).2 <
      (Lwma.calculateLWMAEstimate cacheB network).2 ∧
    (Lwma.calculateLWMAEstimate cacheB network).1 ≤
      (Lwma.calculateLWMAEstimate cacheA network).1 := by
  have hlen' : blocksAvailable cacheB = blocksAvailable cacheA := hlen.symm
  have h2B : 2 ≤ blocksAvailable cacheB := by omega
  have hnemp : (Finset.range (blocksAvailable cacheA)).Nonempty := by
    rw [Finset.nonempty_range_iff]
    omega
  have hnpos : (0 : ℚ) < (blocksAvailable cacheA : ℚ) := by
    have : 0 < blocksAvailable cacheA := by omega
    exact_mod_cast this
  have htot : Asert.totalSolveTime (sortByHeightDesc cacheA) (blocksAvailable cacheA) <
      Asert.totalSolveTime (sortByHeightDesc cacheB) (blocksAvailable cacheA) := by
    apply Finset.sum_lt_sum_of_nonempty hnemp
    intro i hi
    exact hlt i (Finset.mem_range.mp hi)
  have havg : Asert.avgSolveTime cacheA < Asert.avgSolveTime cacheB := by
    simp only [Asert.avgSolveTime, if_neg (not_lt.mpr h2), if_neg (not_lt.mpr h2B), hlen']
    exact (div_lt_div_iff_of_pos_right hnpos).mpr (by exact_mod_cast htot)
  have hchange : Asert.difficultyChange cacheB < Asert.difficultyChange cacheA := by
    simp only [Asert.difficultyChange, if_neg (not_lt.mpr h2), if_neg (not_lt.mpr h2B)]
    have hcast : ((Asert.avgSolveTime cacheA : ℚ) : ℝ) <
        ((Asert.avgSolveTime cacheB : ℚ) : ℝ) := by exact_mod_cast havg
    have hexp : ((150 : ℝ) - ((Asert.avgSolveTime cacheB : ℚ) : ℝ)) / 3600 <
        ((150 : ℝ) - ((Asert.avgSolveTime cacheA : ℚ) : ℝ)) / 3600 := by linarith
    have hr := (Real.rpow_lt_rpow_left_iff (by norm_num : (1 : ℝ) < 2)).mpr hexp
    linarith
  have hWpos : (0 : ℚ) < (Lwma.sumWeights (blocksAvailable cacheA) : ℚ) := by
    exact_mod_cast sumWeights_pos (blocksAvailable cacheA) (by omega)
  have hwtot : Lwma.sumWeightedSolvetimes (sortByHeightDesc cacheA) (blocksAvailable cacheA) <
      Lwma.sumWeightedSolvetimes (sortByHeightDesc cacheB) (blocksAvailable cacheA) := by
    apply Finset.sum_lt_sum_of_nonempty hnemp
    intro i hi
    have hi' := Finset.mem_range.mp hi
    have hw : (0 : ℤ) < ((blocksAvailable cacheA - i : ℕ) : ℤ) := by omega
    exact mul_lt_mul_of_pos_right (hlt i hi') hw
  have hLavg : (Lwma.calculateLWMAEstimate cacheA network).2 <
      (Lwma.calculateLWMAEstimate cacheB network).2 := by
    rw [lwmaEstimate_snd cacheA network h2, lwmaEstimate_snd cacheB network h2B, hlen']
    rw [specWeightedAvg, specWeightedAvg, specAscWeightedSum_eq, specAscWeightedSum_eq,
      specAscWeightSum_eq]
    exact (div_lt_div_iff_of_pos_right hWpos).mpr (by exact_mod_cast hwtot)
  refine ⟨havg, hchange, hLavg, ?_⟩
  rw [hlen'] at hwd
  by_cases hsel : (if network = "testnet" then (200 : ℤ) else 1244300) ≤
      ((sortByHeightDesc cacheA).getD 0 default).height ∧ 3 ≤ blocksAvailable cacheA
  · have hselB : (if network = "testnet" then (200 : ℤ) else 1244300) ≤
        ((sortByHeightDesc cacheB).getD 0 default).height ∧ 3 ≤ blocksAvailable cacheB := by
      rw [hh0, ← hlen]
      exact hsel
    have hwdBne : ((sortByHeightDesc cacheB).getD (blocksAvailable cacheB) default).difficulty
        ≠ 0 := by
      rw [hlen', hwd]
      exact hwdpos.ne'
    rw [lwmaEstimate_fst_v2 cacheA network h2 hsel hwdpos.ne',
      lwmaEstimate_fst_v2 cacheB network h2B hselB hwdBne, hlen']
    exact specV2Change_le (sortByHeightDesc cacheA) (sortByHeightDesc cacheB)
      (blocksAvailable cacheA) (by omega) hcd hcdpos hwd hwdpos hwtot
  · have hselB : ¬ ((if network = "testnet" then (200 : ℤ) else 1244300) ≤
        ((sortByHeightDesc cacheB).getD 0 default).height ∧ 3 ≤ blocksAvailable cacheB) := by
      rw [hh0, ← hlen]
      exact hsel
    rw [lwmaEstimate_fst_v1 cacheA network h2 hsel, lwmaEstimate_fst_v1 cacheB network h2B hselB,
      hlen']
    exact specV1Change_le (sortByHeightDesc cacheA) (sortByHeightDesc cacheB)
      (blocksAvailable cacheA) (by omega) hwtot

/-- Claim C8 counterexample: blocks spaced 20 s versus 30 s (same heights 0–3,
mainnet, LWMA v1).  Every clamped solve time strictly increases, yet the
returned `difficultyChangePercent` is pinned at the +100 cap in both cases, so
it does not strictly decrease. -/
theorem c8_lwma_cap_counterexample :
    (∀ i < blocksAvailable [⟨0, 0, 100⟩, ⟨1, 20, 100⟩, ⟨2, 40, 100⟩, ⟨3, 60, 100⟩],
      pairSolveTime (sortByHeightDesc [⟨0, 0, 100⟩, ⟨1, 20, 100⟩, ⟨2, 40, 100⟩,
          ⟨3, 60, 100⟩]) i <
        pairSolveTime (sortByHeightDesc [⟨0, 0, 100⟩, ⟨1, 30, 100⟩, ⟨2, 60, 100⟩,
          ⟨3, 90, 100⟩]) i) ∧
    (Lwma.calculateLWMAEstimate [⟨0, 0, 100⟩, ⟨1, 20, 100⟩, ⟨2, 40, 100⟩, ⟨3, 60, 100⟩]
        "mainnet").1 = 100 ∧
    (Lwma.calculateLWMAEstimate [⟨0, 0, 100⟩, ⟨1, 30, 100⟩, ⟨2, 60, 100⟩, ⟨3, 90, 100⟩]
        "mainnet").1 = 100 := by
  refine ⟨by decide, ?_, ?_⟩ <;>
  · norm_num [Lwma.calculateLWMAEstimate, sortByHeightDesc, insertByHeightDesc,
      Lwma.sumWeightedSolvetimes, Lwma.sumWeights, pairSolveTime, clampSolveTime,
      Finset.sum_range_succ]
    decide

/-- Claim C8 witness: blocks spaced 100 s versus 120 s at mainnet heights
1244300–1244303 (v2 active), same difficulties, exercising every hypothesis. -/
theorem c8_monotonicity_amended_witness :
    2 ≤ blocksAvailable [⟨1244300, 0, 100⟩, ⟨1244301, 100, 100⟩, ⟨1244302, 200, 100⟩,
        ⟨1244303, 300, 100⟩] ∧
    (Asert.avgSolveTime [⟨1244300, 0, 100⟩, ⟨1244301, 100, 100⟩, ⟨1244302, 200, 100⟩,
          ⟨1244303, 300, 100⟩] <
        Asert.avgSolveTime [⟨1244300, 0, 100⟩, ⟨1244301, 120, 100⟩, ⟨1244302, 240, 100⟩,
          ⟨1244303, 360, 100⟩] ∧
      Asert.difficultyChange [⟨1244300, 0, 100⟩, ⟨1244301, 120, 100⟩, ⟨1244302, 240, 100⟩,
          ⟨1244303, 360, 100⟩] <
        Asert.difficultyChange [⟨1244300, 0, 100⟩, ⟨1244301, 100, 100⟩, ⟨1244302, 200, 100⟩,
          ⟨1244303, 300, 100⟩] ∧
      (Lwma.calculateLWMAEstimate [⟨1244300, 0, 100⟩, ⟨1244301, 100, 100⟩,
          ⟨1244302, 200, 100⟩, ⟨1244303, 300, 100⟩] "mainnet").2 <
        (Lwma.calculateLWMAEstimate [⟨1244300, 0, 100⟩, ⟨1244301, 120, 100⟩,
          ⟨1244302, 240, 100⟩, ⟨1244303, 360, 100⟩] "mainnet").2 ∧
      (Lwma.calculateLWMAEstimate [⟨1244300, 0, 100⟩, ⟨1244301, 120, 100⟩,
          ⟨1244302, 240, 100⟩, ⟨1244303, 360, 100⟩] "mainnet").1 ≤
        (Lwma.calculateLWMAEstimate [⟨1244300, 0, 100⟩, ⟨1244301, 100, 100⟩,
          ⟨1244302, 200, 100⟩, ⟨1244303, 300, 100⟩] "mainnet").1) :=
  ⟨by decide,
    c8_monotonicity_amended
      [⟨1244300, 0, 100⟩, ⟨1244301, 100, 100⟩, ⟨1244302, 200, 100⟩, ⟨1244303, 300, 100⟩]
      [⟨1244300, 0, 100⟩, ⟨1244301, 120, 100⟩, ⟨1244302, 240, 100⟩, ⟨1244303, 360, 100⟩]
      "mainnet" (by decide) (by decide) (by decide) (by decide) (by decide) (by decide)
      (by decide) (by decide)⟩
